import Mathlib

/-!
Verification of the macOS key-IO bridge (`c_src/mac/keyio_mac.cpp`).

The file embeds the pure/stateful logic of the source shallowly:

* `KeyEvent` mirrors the C struct (`type : uint64`, `page : uint32`,
  `usage : uint32`); machine integers are `Nat` with explicit range
  hypotheses where the width matters.
* The four per-category key sets (`keyboard`, `top_case`,
  `apple_keyboard`, `consumer`) are modelled as `Finset ℕ`.  Their C++
  type lives in the external Karabiner virtual-HID header, which is not
  part of this repository's sources; the spec describes them as mutable
  sets with insert/erase semantics, so the model follows the spec there.
* The kernel-extension post (`post_keyboard_input_report`) is an
  external call; it is modelled as an oracle parameter
  `post : Category → Finset ℕ → ℤ` giving the status the driver would
  return for a posted report, and the embedding additionally records
  the list of reports posted during a call.
* The device-matching loop, the termination callback, the shutdown
  close loop and `release_kb` are embedded as functions over explicit
  environment records capturing the OS results they branch on.
-/

/-- Mirrors `struct KeyEvent` (keyio_mac.cpp lines 19–23):
`type` is a `uint64_t`, `page` and `usage` are `uint32_t`. -/
structure KeyEvent where
  type : ℕ
  page : ℕ
  usage : ℕ
deriving DecidableEq, Repr

/-- The four report categories, one per global report object
(keyio_mac.cpp lines 32–35). -/
inductive Category where
  | keyboard
  | top_case
  | apple_keyboard
  | consumer
deriving DecidableEq, Repr

/-- The four per-category key sets (the global report objects of
keyio_mac.cpp lines 32–35, restricted to their `keys` members). -/
structure ReportState where
  keyboard : Finset ℕ
  top_case : Finset ℕ
  apple_keyboard : Finset ℕ
  consumer : Finset ℕ
deriving DecidableEq

/-- Modelled from the spec: the recognized usage page
`keyboard_or_keypad` of the external Karabiner header
(`pqrs::karabiner_virtual_hid_device::usage_page`), value
`kHIDPage_KeyboardOrKeypad`. -/
def page_keyboard_or_keypad : ℕ := 0x07

/-- Modelled from the spec: the recognized usage page
`apple_vendor_top_case` of the external Karabiner header. -/
def page_apple_vendor_top_case : ℕ := 0xff

/-- Modelled from the spec: the recognized usage page
`apple_vendor_keyboard` of the external Karabiner header. -/
def page_apple_vendor_keyboard : ℕ := 0xff01

/-- Modelled from the spec: the recognized usage page `consumer` of the
external Karabiner header, value `kHIDPage_Consumer`. -/
def page_consumer : ℕ := 0x0c

/-- Project a category's key set out of the report state. -/
def getCat (s : ReportState) : Category → Finset ℕ
  | Category.keyboard => s.keyboard
  | Category.top_case => s.top_case
  | Category.apple_keyboard => s.apple_keyboard
  | Category.consumer => s.consumer

/-- Result of one `send_key` call: the returned status, the report
state afterwards, and the trace of reports posted to the sink. -/
structure SendResult where
  status : ℤ
  state : ReportState
  posts : List (Category × Finset ℕ)
deriving DecidableEq

/-- The `send_key<T>` template (keyio_mac.cpp lines 142–148) for one
category: on `type == 1` insert the usage, on `type == 0` erase it,
otherwise return 1; on success post the mutated report and return the
post status.  `post` is the external driver's status for the posted
report; the third component records the reports posted. -/
def send_key_t (post : Finset ℕ → ℤ) (keys : Finset ℕ) (e : KeyEvent) :
    ℤ × Finset ℕ × List (Finset ℕ) :=
  if e.type = 1 then
    let ks := insert e.usage keys
    (post ks, ks, [ks])
  else if e.type = 0 then
    let ks := keys.erase e.usage
    (post ks, ks, [ks])
  else
    (1, keys, [])

/-- The exported `send_key` (keyio_mac.cpp lines 155–167): dispatch on
the usage page to one of the four category reports, in the source's
comparison order; unrecognized pages return 1 without touching any
state. -/
def send_key (post : Category → Finset ℕ → ℤ) (s : ReportState)
    (e : KeyEvent) : SendResult :=
  if e.page = page_keyboard_or_keypad then
    let r := send_key_t (post Category.keyboard) s.keyboard e
    ⟨r.1, { s with keyboard := r.2.1 },
      r.2.2.map (fun ks => (Category.keyboard, ks))⟩
  else if e.page = page_apple_vendor_top_case then
    let r := send_key_t (post Category.top_case) s.top_case e
    ⟨r.1, { s with top_case := r.2.1 },
      r.2.2.map (fun ks => (Category.top_case, ks))⟩
  else if e.page = page_apple_vendor_keyboard then
    let r := send_key_t (post Category.apple_keyboard) s.apple_keyboard e
    ⟨r.1, { s with apple_keyboard := r.2.1 },
      r.2.2.map (fun ks => (Category.apple_keyboard, ks))⟩
  else if e.page = page_consumer then
    let r := send_key_t (post Category.consumer) s.consumer e
    ⟨r.1, { s with consumer := r.2.1 },
      r.2.2.map (fun ks => (Category.consumer, ks))⟩
  else
    ⟨1, s, []⟩

/-- The page-to-category classification implicit in `send_key`'s
if/else chain, read off in the source's comparison order. -/
def resolveCategory (page : ℕ) : Option Category :=
  if page = page_keyboard_or_keypad then some Category.keyboard
  else if page = page_apple_vendor_top_case then some Category.top_case
  else if page = page_apple_vendor_keyboard then some Category.apple_keyboard
  else if page = page_consumer then some Category.consumer
  else none

/-- Replace one category's key set in the report state. -/
def setCat (s : ReportState) : Category → Finset ℕ → ReportState
  | Category.keyboard, k => { s with keyboard := k }
  | Category.top_case, k => { s with top_case := k }
  | Category.apple_keyboard, k => { s with apple_keyboard := k }
  | Category.consumer, k => { s with consumer := k }

/-- The key set `send_key` leaves in the resolved category: insert on
`type = 1`, erase on `type = 0`. -/
def mutatedKeys (s : ReportState) (c : Category) (e : KeyEvent) : Finset ℕ :=
  if e.type = 1 then insert e.usage (getCat s c) else (getCat s c).erase e.usage

lemma getCat_setCat (s : ReportState) (c c' : Category) (k : Finset ℕ) :
    getCat (setCat s c k) c' = if c' = c then k else getCat s c' := by
  cases c <;> cases c' <;> simp [getCat, setCat]

lemma send_key_resolved (post : Category → Finset ℕ → ℤ) (s : ReportState)
    (e : KeyEvent) (c : Category) (hc : resolveCategory e.page = some c)
    (ht : e.type = 0 ∨ e.type = 1) :
    send_key post s e =
      ⟨post c (mutatedKeys s c e), setCat s c (mutatedKeys s c e),
        [(c, mutatedKeys s c e)]⟩ := by
  unfold resolveCategory at hc
  unfold send_key send_key_t
  rcases ht with ht | ht <;>
    split_ifs at hc ⊢ with h1 h2 h3 h4 <;>
    simp_all [mutatedKeys, getCat, setCat] <;>
    simp [← hc, getCat, setCat]

lemma send_key_bad_type (post : Category → Finset ℕ → ℤ) (s : ReportState)
    (e : KeyEvent) (h0 : e.type ≠ 0) (h1 : e.type ≠ 1) :
    send_key post s e = ⟨1, s, []⟩ := by
  unfold send_key send_key_t
  split_ifs <;> simp_all

lemma send_key_unrecognized (post : Category → Finset ℕ → ℤ)
    (s : ReportState) (e : KeyEvent) (hc : resolveCategory e.page = none) :
    send_key post s e = ⟨1, s, []⟩ := by
  unfold resolveCategory at hc
  unfold send_key
  split_ifs at hc ⊢
  rfl

/-- **C1.** For every `KeyEvent` whose `type` is in `{0,1}` and whose
`page` resolves to one of the four recognized usage pages, `send_key`
returns 0 (the sink's success status, assuming the external post
succeeds) and the resolved category's key set afterwards is the prior
set with `usage` inserted (`type = 1`) or erased (`type = 0`). -/
theorem C1_send_key_wellformed (post : Category → Finset ℕ → ℤ)
    (s : ReportState) (e : KeyEvent) (c : Category)
    (hc : resolveCategory e.page = some c) (ht : e.type = 0 ∨ e.type = 1)
    (hpost : ∀ r, post c r = 0) :
    (send_key post s e).status = 0 ∧
    getCat (send_key post s e).state c =
      (if e.type = 1 then insert e.usage (getCat s c)
       else (getCat s c).erase e.usage) := by
  rw [send_key_resolved post s e c hc ht]
  refine ⟨hpost _, ?_⟩
  simp [getCat_setCat, mutatedKeys]

theorem C1_send_key_wellformed_witness :
    (resolveCategory (⟨1, 0x07, 4⟩ : KeyEvent).page = some Category.keyboard) ∧
    ((⟨1, 0x07, 4⟩ : KeyEvent).type = 0 ∨ (⟨1, 0x07, 4⟩ : KeyEvent).type = 1) ∧
    ((send_key (fun _ _ => 0) ⟨∅, ∅, ∅, ∅⟩ ⟨1, 0x07, 4⟩).status = 0 ∧
      getCat (send_key (fun _ _ => 0) ⟨∅, ∅, ∅, ∅⟩ ⟨1, 0x07, 4⟩).state
          Category.keyboard =
        (if (⟨1, 0x07, 4⟩ : KeyEvent).type = 1 then
          insert (⟨1, 0x07, 4⟩ : KeyEvent).usage
            (getCat ⟨∅, ∅, ∅, ∅⟩ Category.keyboard)
         else (getCat ⟨∅, ∅, ∅, ∅⟩ Category.keyboard).erase
            (⟨1, 0x07, 4⟩ : KeyEvent).usage)) :=
  ⟨by decide, Or.inr rfl,
    C1_send_key_wellformed (fun _ _ => 0) ⟨∅, ∅, ∅, ∅⟩ ⟨1, 0x07, 4⟩
      Category.keyboard (by decide) (Or.inr rfl) (fun _ => rfl)⟩

/-- **C2.** For every `KeyEvent` whose `type` is neither 0 nor 1,
`send_key` returns a non-zero status, leaves all four category key sets
unchanged, and posts nothing to the sink. -/
theorem C2_send_key_bad_type (post : Category → Finset ℕ → ℤ)
    (s : ReportState) (e : KeyEvent) (h0 : e.type ≠ 0) (h1 : e.type ≠ 1) :
    (send_key post s e).status ≠ 0 ∧
    (send_key post s e).state = s ∧
    (send_key post s e).posts = [] := by
  rw [send_key_bad_type post s e h0 h1]
  exact ⟨by norm_num, rfl, rfl⟩

theorem C2_send_key_bad_type_witness :
    ((⟨2, 0x07, 4⟩ : KeyEvent).type ≠ 0) ∧
    ((⟨2, 0x07, 4⟩ : KeyEvent).type ≠ 1) ∧
    ((send_key (fun _ _ => 0) ⟨{9}, ∅, ∅, ∅⟩ ⟨2, 0x07, 4⟩).status ≠ 0 ∧
      (send_key (fun _ _ => 0) ⟨{9}, ∅, ∅, ∅⟩ ⟨2, 0x07, 4⟩).state
        = ⟨{9}, ∅, ∅, ∅⟩ ∧
      (send_key (fun _ _ => 0) ⟨{9}, ∅, ∅, ∅⟩ ⟨2, 0x07, 4⟩).posts = []) :=
  ⟨by decide, by decide,
    C2_send_key_bad_type (fun _ _ => 0) ⟨{9}, ∅, ∅, ∅⟩ ⟨2, 0x07, 4⟩
      (by decide) (by decide)⟩

/-- **C3.** For every `KeyEvent` whose `page` is not one of the four
recognized usage pages, `send_key` returns exactly 1 and mutates none
of the four category key sets. -/
theorem C3_send_key_unrecognized_page (post : Category → Finset ℕ → ℤ)
    (s : ReportState) (e : KeyEvent) (hc : resolveCategory e.page = none) :
    (send_key post s e).status = 1 ∧ (send_key post s e).state = s := by
  rw [send_key_unrecognized post s e hc]
  exact ⟨rfl, rfl⟩

theorem C3_send_key_unrecognized_page_witness :
    (resolveCategory (⟨1, 0x99, 4⟩ : KeyEvent).page = none) ∧
    ((send_key (fun _ _ => 0) ⟨{9}, ∅, ∅, ∅⟩ ⟨1, 0x99, 4⟩).status = 1 ∧
      (send_key (fun _ _ => 0) ⟨{9}, ∅, ∅, ∅⟩ ⟨1, 0x99, 4⟩).state
        = ⟨{9}, ∅, ∅, ∅⟩) :=
  ⟨by decide,
    C3_send_key_unrecognized_page (fun _ _ => 0) ⟨{9}, ∅, ∅, ∅⟩
      ⟨1, 0x99, 4⟩ (by decide)⟩

lemma setCat_setCat (s : ReportState) (c : Category) (k k' : Finset ℕ) :
    setCat (setCat s c k) c k' = setCat s c k' := by
  cases c <;> rfl

lemma setCat_getCat_self (s : ReportState) (c : Category) :
    setCat s c (getCat s c) = s := by
  cases c <;> rfl

/-- **C4.** For a recognized page (given a sink whose posts succeed),
sending the same down event twice leaves the whole report state equal
to its value after sending it once; and sending an up event for a
usage not currently in the resolved set leaves the state unchanged and
still returns success. -/
theorem C4_idempotence (post : Category → Finset ℕ → ℤ) (s : ReportState)
    (e : KeyEvent) (c : Category) (hc : resolveCategory e.page = some c)
    (hpost : ∀ c' r, post c' r = 0) :
    (e.type = 1 →
      (send_key post (send_key post s e).state e).state
        = (send_key post s e).state) ∧
    (e.type = 0 → e.usage ∉ getCat s c →
      (send_key post s e).state = s ∧ (send_key post s e).status = 0) := by
  constructor
  · intro ht
    rw [send_key_resolved post s e c hc (Or.inr ht)]
    rw [send_key_resolved post _ e c hc (Or.inr ht)]
    simp [mutatedKeys, ht, getCat_setCat, setCat_setCat]
  · intro ht hu
    rw [send_key_resolved post s e c hc (Or.inl ht)]
    have hm : mutatedKeys s c e = getCat s c := by
      simp [mutatedKeys, ht, Finset.erase_eq_of_not_mem hu]
    rw [hm, setCat_getCat_self]
    exact ⟨rfl, hpost c _⟩

theorem C4_idempotence_witness :
    (resolveCategory (⟨0, 0x0c, 5⟩ : KeyEvent).page = some Category.consumer) ∧
    (((⟨0, 0x0c, 5⟩ : KeyEvent).type = 1 →
      (send_key (fun _ _ => 0)
          (send_key (fun _ _ => 0) ⟨∅, ∅, ∅, {9}⟩ ⟨0, 0x0c, 5⟩).state
          ⟨0, 0x0c, 5⟩).state
        = (send_key (fun _ _ => 0) ⟨∅, ∅, ∅, {9}⟩ ⟨0, 0x0c, 5⟩).state) ∧
    ((⟨0, 0x0c, 5⟩ : KeyEvent).type = 0 →
      (⟨0, 0x0c, 5⟩ : KeyEvent).usage ∉ getCat ⟨∅, ∅, ∅, {9}⟩ Category.consumer →
      (send_key (fun _ _ => 0) ⟨∅, ∅, ∅, {9}⟩ ⟨0, 0x0c, 5⟩).state
          = ⟨∅, ∅, ∅, {9}⟩ ∧
        (send_key (fun _ _ => 0) ⟨∅, ∅, ∅, {9}⟩ ⟨0, 0x0c, 5⟩).status = 0)) :=
  ⟨by decide,
    C4_idempotence (fun _ _ => 0) ⟨∅, ∅, ∅, {9}⟩ ⟨0, 0x0c, 5⟩
      Category.consumer (by decide) (fun _ _ => rfl)⟩

/-- **C5.** Each recognized usage page maps to exactly one of the four
report categories (the four pages resolve to the four distinct
categories), and a `send_key` call for one category leaves the other
three categories' key sets unchanged. -/
theorem C5_category_frame (post : Category → Finset ℕ → ℤ)
    (s : ReportState) (e : KeyEvent) (c c' : Category)
    (hc : resolveCategory e.page = some c) (hne : c' ≠ c) :
    getCat (send_key post s e).state c' = getCat s c' ∧
    resolveCategory page_keyboard_or_keypad = some Category.keyboard ∧
    resolveCategory page_apple_vendor_top_case = some Category.top_case ∧
    resolveCategory page_apple_vendor_keyboard = some Category.apple_keyboard ∧
    resolveCategory page_consumer = some Category.consumer := by
  refine ⟨?_, by decide, by decide, by decide, by decide⟩
  by_cases h0 : e.type = 0
  · rw [send_key_resolved post s e c hc (Or.inl h0)]
    simp [getCat_setCat, hne]
  · by_cases h1 : e.type = 1
    · rw [send_key_resolved post s e c hc (Or.inr h1)]
      simp [getCat_setCat, hne]
    · rw [send_key_bad_type post s e h0 h1]

theorem C5_category_frame_witness :
    (resolveCategory (⟨1, 0x07, 4⟩ : KeyEvent).page = some Category.keyboard) ∧
    (Category.consumer ≠ Category.keyboard) ∧
    (getCat (send_key (fun _ _ => 0) ⟨∅, ∅, ∅, {9}⟩ ⟨1, 0x07, 4⟩).state
        Category.consumer = getCat ⟨∅, ∅, ∅, {9}⟩ Category.consumer ∧
      resolveCategory page_keyboard_or_keypad = some Category.keyboard ∧
      resolveCategory page_apple_vendor_top_case = some Category.top_case ∧
      resolveCategory page_apple_vendor_keyboard = some Category.apple_keyboard ∧
      resolveCategory page_consumer = some Category.consumer) :=
  ⟨by decide, by decide,
    C5_category_frame (fun _ _ => 0) ⟨∅, ∅, ∅, {9}⟩ ⟨1, 0x07, 4⟩
      Category.keyboard Category.consumer (by decide) (by decide)⟩

/-- **C9.** The `type` comparison is at the field's full 64-bit width:
for every value of the `uint64_t` range other than exactly 0 and 1 —
including `2^32`, which would truncate to 0 at 32 bits — `send_key`
returns 1 without mutating any key set. -/
theorem C9_type_full_width (post : Category → Finset ℕ → ℤ)
    (s : ReportState) (e : KeyEvent) (_hw : e.type < 2 ^ 64)
    (h0 : e.type ≠ 0) (h1 : e.type ≠ 1) :
    (send_key post s e).status = 1 ∧ (send_key post s e).state = s := by
  rw [send_key_bad_type post s e h0 h1]
  exact ⟨rfl, rfl⟩

theorem C9_type_full_width_witness :
    ((⟨2 ^ 32, 0x07, 4⟩ : KeyEvent).type < 2 ^ 64) ∧
    ((⟨2 ^ 32, 0x07, 4⟩ : KeyEvent).type ≠ 0) ∧
    ((⟨2 ^ 32, 0x07, 4⟩ : KeyEvent).type ≠ 1) ∧
    ((send_key (fun _ _ => 0) ⟨{9}, ∅, ∅, ∅⟩ ⟨2 ^ 32, 0x07, 4⟩).status = 1 ∧
      (send_key (fun _ _ => 0) ⟨{9}, ∅, ∅, ∅⟩ ⟨2 ^ 32, 0x07, 4⟩).state
        = ⟨{9}, ∅, ∅, ∅⟩) :=
  ⟨by norm_num, by norm_num, by norm_num,
    C9_type_full_width (fun _ _ => 0) ⟨{9}, ∅, ∅, ∅⟩ ⟨2 ^ 32, 0x07, 4⟩
      (by norm_num) (by norm_num) (by norm_num)⟩

/-- **C10.** For every `KeyEvent` with a recognized page and `type` in
`{0,1}`, `send_key` posts exactly one report, whose content is the full
current key set of the resolved category after the mutation (also when
the mutation is a no-op), and its return value is exactly the sink's
status for that post — so it can be non-zero for a well-formed event. -/
theorem C10_exactly_one_post (post : Category → Finset ℕ → ℤ)
    (s : ReportState) (e : KeyEvent) (c : Category)
    (hc : resolveCategory e.page = some c) (ht : e.type = 0 ∨ e.type = 1) :
    (send_key post s e).posts
        = [(c, getCat (send_key post s e).state c)] ∧
    (send_key post s e).status
        = post c (getCat (send_key post s e).state c) := by
  rw [send_key_resolved post s e c hc ht]
  simp [getCat_setCat]

theorem C10_exactly_one_post_witness :
    (resolveCategory (⟨1, 0x07, 4⟩ : KeyEvent).page = some Category.keyboard) ∧
    ((⟨1, 0x07, 4⟩ : KeyEvent).type = 0 ∨ (⟨1, 0x07, 4⟩ : KeyEvent).type = 1) ∧
    ((send_key (fun _ _ => (7 : ℤ)) ⟨{4}, ∅, ∅, ∅⟩ ⟨1, 0x07, 4⟩).posts
        = [(Category.keyboard,
            getCat (send_key (fun _ _ => (7 : ℤ)) ⟨{4}, ∅, ∅, ∅⟩
                ⟨1, 0x07, 4⟩).state Category.keyboard)] ∧
      (send_key (fun _ _ => (7 : ℤ)) ⟨{4}, ∅, ∅, ∅⟩ ⟨1, 0x07, 4⟩).status
        = (fun _ _ => (7 : ℤ)) Category.keyboard
            (getCat (send_key (fun _ _ => (7 : ℤ)) ⟨{4}, ∅, ∅, ∅⟩
                ⟨1, 0x07, 4⟩).state Category.keyboard)) :=
  ⟨by decide, Or.inr rfl,
    C10_exactly_one_post (fun _ _ => (7 : ℤ)) ⟨{4}, ∅, ∅, ∅⟩ ⟨1, 0x07, 4⟩
      Category.keyboard (by decide) (Or.inr rfl)⟩

/-- One device met by the iteration loop of `open_matching_devices`
(keyio_mac.cpp lines 91–111): its service identifier, the result of the
product-name lookup (`IORegistryEntryCreateCFProperty`, `none` on
failure) and the return of `IOHIDDeviceOpen` (0 = `kIOReturnSuccess`). -/
structure DeviceInfo where
  id : ℕ
  name : Option String
  openResult : ℤ
deriving DecidableEq, Repr

/-- Product name of the virtual keyboard, rejected to avoid the
self-capture feedback loop (keyio_mac.cpp line 83). -/
def karabiner_product : String := "Karabiner VirtualHIDKeyboard"

/-- The match test of keyio_mac.cpp lines 97–99: the name must differ
from the virtual keyboard's product name, and when a filter is set it
must also equal the filter. -/
def device_matches (filter : Option String) (nm : String) : Bool :=
  match filter with
  | none => nm ≠ karabiner_product
  | some f => (nm ≠ karabiner_product : Bool) && (nm = f : Bool)

/-- Observable outcome of the matching loop: identifiers added to
`source_device`, identifiers scheduled on the listener run loop, and
the error labels printed. -/
structure MatchOutcome where
  registry : List ℕ
  scheduled : List ℕ
  logged : List String
deriving DecidableEq, Repr

/-- The device-iteration loop of `open_matching_devices`
(keyio_mac.cpp lines 91–111).  A failed name lookup logs and skips the
device (`continue`); a matching device is stored in `source_device`,
then opened — a failed open only logs — and then scheduled on the run
loop regardless of the open result. -/
def open_matching_loop (filter : Option String) :
    List DeviceInfo → MatchOutcome
  | [] => ⟨[], [], []⟩
  | d :: rest =>
    match d.name with
    | none =>
      let o := open_matching_loop filter rest
      ⟨o.registry, o.scheduled, "IORegistryEntryCreateCFProperty" :: o.logged⟩
    | some nm =>
      if device_matches filter nm then
        let o := open_matching_loop filter rest
        ⟨d.id :: o.registry, d.id :: o.scheduled,
          (if d.openResult ≠ 0 then ["IOHIDDeviceOpen"] else []) ++ o.logged⟩
      else
        open_matching_loop filter rest

/-- **C6, counterexample.** A matching device whose open (seize) call
fails is *not* skipped: with devices `1` (open fails) and `2` (open
succeeds), device `1` is still stored in the registry and scheduled on
the run loop, so it is not excluded from capture as the claim states. -/
theorem C6_counterexample :
    (open_matching_loop none
        [⟨1, some "kb", 1⟩, ⟨2, some "kb2", 0⟩]).registry = [1, 2] ∧
    (open_matching_loop none
        [⟨1, some "kb", 1⟩, ⟨2, some "kb2", 0⟩]).scheduled = [1, 2] ∧
    (open_matching_loop none
        [⟨1, some "kb", 1⟩, ⟨2, some "kb2", 0⟩]).logged
      = ["IOHIDDeviceOpen"] := by decide

/-- **C6, amended.** When a matching device's open call fails, the
failure is logged and is not fatal: the remaining devices are
processed exactly as they would be on their own.  However, the
failed-open device is not skipped — it stays in the registry and is
still scheduled on the run loop.  (Only a failed product-name lookup
skips a device.) -/
theorem C6_open_failure_nonfatal (filter : Option String) (d : DeviceInfo)
    (rest : List DeviceInfo) (nm : String) (hn : d.name = some nm)
    (hm : device_matches filter nm = true) (ho : d.openResult ≠ 0) :
    (open_matching_loop filter (d :: rest)).registry
        = d.id :: (open_matching_loop filter rest).registry ∧
    (open_matching_loop filter (d :: rest)).scheduled
        = d.id :: (open_matching_loop filter rest).scheduled ∧
    "IOHIDDeviceOpen" ∈ (open_matching_loop filter (d :: rest)).logged := by
  simp [open_matching_loop, hn, hm, ho]

theorem C6_open_failure_nonfatal_witness :
    ((⟨1, some "kb", 1⟩ : DeviceInfo).name = some "kb") ∧
    (device_matches none "kb" = true) ∧
    ((⟨1, some "kb", 1⟩ : DeviceInfo).openResult ≠ 0) ∧
    ((open_matching_loop none
          [⟨1, some "kb", 1⟩, ⟨2, some "kb2", 0⟩]).registry
        = 1 :: (open_matching_loop none [⟨2, some "kb2", 0⟩]).registry ∧
      (open_matching_loop none
          [⟨1, some "kb", 1⟩, ⟨2, some "kb2", 0⟩]).scheduled
        = 1 :: (open_matching_loop none [⟨2, some "kb2", 0⟩]).scheduled ∧
      "IOHIDDeviceOpen" ∈ (open_matching_loop none
          [⟨1, some "kb", 1⟩, ⟨2, some "kb2", 0⟩]).logged) :=
  ⟨rfl, by decide, by decide,
    C6_open_failure_nonfatal none ⟨1, some "kb", 1⟩ [⟨2, some "kb2", 0⟩]
      "kb" rfl (by decide) (by decide)⟩

/-- The device registry `source_device` (keyio_mac.cpp line 42), as an
association list from service identifier to device handle; keys are
unique since the C++ container is a `std::map`. -/
abbrev Registry : Type := List (ℕ × ℕ)

/-- `source_device.erase(curr)` (keyio_mac.cpp line 135): drop the
entry with the given key; on a unique-key map this is the same as
filtering the key out. -/
def erase_key (i : ℕ) (reg : Registry) : Registry :=
  List.filter (fun p => p.1 ≠ i) reg

/-- `terminated_callback` (keyio_mac.cpp lines 133–137): erase every
identifier produced by the iterator from the registry. -/
def terminated_callback (iter : List ℕ) (reg : Registry) : Registry :=
  iter.foldl (fun r i => erase_key i r) reg

/-- The shutdown loop at the end of `monitor_kb` (keyio_mac.cpp lines
237–242): after the run loop stops, call `IOHIDDeviceClose` on each
handle still in the registry; returns the handles closed, in order. -/
def shutdown_close (reg : Registry) : List ℕ :=
  reg.foldl (fun acc p => acc ++ [p.2]) []

lemma mem_terminated_callback (iter : List ℕ) :
    ∀ (reg : Registry) (p : ℕ × ℕ), p ∈ terminated_callback iter reg →
      p ∈ reg ∧ ∀ i ∈ iter, p.1 ≠ i := by
  induction iter with
  | nil => intro reg p hp; exact ⟨hp, by simp⟩
  | cons i is ih =>
    intro reg p hp
    have h := ih (erase_key i reg) p hp
    have hmem := List.mem_filter.mp h.1
    refine ⟨hmem.1, ?_⟩
    intro i' hi'
    rcases List.mem_cons.mp hi' with h' | h'
    · subst h'
      simpa using hmem.2
    · exact h.2 i' h'

lemma shutdown_close_aux (reg : Registry) :
    ∀ acc : List ℕ,
      reg.foldl (fun a p => a ++ [p.2]) acc = acc ++ reg.map Prod.snd := by
  induction reg with
  | nil => intro acc; simp
  | cons p ps ih => intro acc; simp [List.foldl, ih]

/-- **C7.** The registry never keeps a terminated device: after
`terminated_callback` runs on any iterated identifiers, no entry with
one of those identifiers remains; erasing an identifier that is not
present is a harmless no-op; and the shutdown loop closes every handle
still remaining in the registry. -/
theorem C7_registry_invariant (reg : Registry) (iter : List ℕ) (j : ℕ)
    (hj : ∀ p ∈ reg, p.1 ≠ j) :
    List.filter (fun p => iter.contains p.1) (terminated_callback iter reg)
        = [] ∧
    erase_key j reg = reg ∧
    ∀ p ∈ reg, p.2 ∈ shutdown_close reg := by
  refine ⟨?_, ?_, ?_⟩
  · rw [List.filter_eq_nil_iff]
    intro p hp
    have h := mem_terminated_callback iter reg p hp
    intro hb
    have hmem : p.1 ∈ iter := by simpa using hb
    exact h.2 p.1 hmem rfl
  · exact List.filter_eq_self.mpr (fun p hp => by simpa using hj p hp)
  · intro p hp
    rw [shutdown_close, shutdown_close_aux reg []]
    simpa using List.mem_map_of_mem Prod.snd hp

theorem C7_registry_invariant_witness :
    (∀ p ∈ ([(1, 10), (2, 20)] : Registry), p.1 ≠ 5) ∧
    (List.filter (fun p => [1].contains p.1)
        (terminated_callback [1] ([(1, 10), (2, 20)] : Registry)) = [] ∧
      erase_key 5 ([(1, 10), (2, 20)] : Registry) = [(1, 10), (2, 20)] ∧
      ∀ p ∈ ([(1, 10), (2, 20)] : Registry),
        p.2 ∈ shutdown_close ([(1, 10), (2, 20)] : Registry)) :=
  ⟨by decide,
    C7_registry_invariant [(1, 10), (2, 20)] [1] 5 (by decide)⟩

/-- Environment a `release_kb` run observes (keyio_mac.cpp lines
318–359): whether the monitor thread is joinable, whether a filter
string was held, the results of `close(fd[0])`/`close(fd[1])` (−1 on
error), of `reset_virtual_hid_keyboard`, the `connect`/`service`
handles (0 = null), and the results of `IOServiceClose` and
`IOObjectRelease`. -/
structure ReleaseEnv where
  joinable : Bool
  hasProd : Bool
  closeReadResult : ℤ
  closeWriteResult : ℤ
  resetResult : ℤ
  connectHandle : ℕ
  serviceCloseResult : ℤ
  serviceHandle : ℕ
  objectReleaseResult : ℤ
deriving DecidableEq, Repr

/-- Outcome of `release_kb`: the returned status, the teardown steps
attempted (in order), and the diagnostic lines printed. -/
structure ReleaseOutcome where
  retval : ℤ
  attempted : List String
  logged : List String
deriving DecidableEq, Repr

/-- `release_kb` (keyio_mac.cpp lines 318–359), straight-line: stop
and join the monitor thread when joinable (else only a diagnostic);
free the filter string; close both pipe ends; reset the virtual
keyboard; close the sink connection and release the service when their
handles are non-null.  Each failure sets `retval` to 1 and logs, and no
failure skips a later step. -/
def release_kb (env : ReleaseEnv) : ReleaseOutcome :=
  let att0 : List String :=
    if env.joinable then ["CFRunLoopStop", "thread.join"] else []
  let log0 : List String :=
    if env.joinable then [] else ["No thread was running!"]
  let att1 := att0 ++ (if env.hasProd then ["free"] else [])
  let att2 := att1 ++ ["close_fd0"]
  let r2 : ℤ := if env.closeReadResult = -1 then 1 else 0
  let log2 := log0 ++ (if env.closeReadResult = -1 then ["close error"] else [])
  let att3 := att2 ++ ["close_fd1"]
  let r3 : ℤ := if env.closeWriteResult = -1 then 1 else r2
  let log3 := log2 ++ (if env.closeWriteResult = -1 then ["close error"] else [])
  let att4 := att3 ++ ["reset_virtual_hid_keyboard"]
  let r4 : ℤ := if env.resetResult ≠ 0 then 1 else r3
  let log4 := log3 ++
    (if env.resetResult ≠ 0 then ["reset_virtual_hid_keyboard error"] else [])
  let att5 := att4 ++ (if env.connectHandle ≠ 0 then ["IOServiceClose"] else [])
  let r5 : ℤ :=
    if env.connectHandle ≠ 0 ∧ env.serviceCloseResult ≠ 0 then 1 else r4
  let log5 := log4 ++
    (if env.connectHandle ≠ 0 ∧ env.serviceCloseResult ≠ 0 then
      ["IOServiceClose error"] else [])
  let att6 := att5 ++ (if env.serviceHandle ≠ 0 then ["IOObjectRelease"] else [])
  let r6 : ℤ :=
    if env.serviceHandle ≠ 0 ∧ env.objectReleaseResult ≠ 0 then 1 else r5
  let log6 := log5 ++
    (if env.serviceHandle ≠ 0 ∧ env.objectReleaseResult ≠ 0 then
      ["IOObjectRelease error"] else [])
  ⟨r6, att6, log6⟩

/-- **C8.** `release_kb` is best-effort and total: the steps attempted
do not depend on any step's failure (they depend only on which
resources exist), the return value is 0 exactly when every attempted
teardown step succeeded, and a missing monitor thread is only a
diagnostic — it never makes the return value non-zero. -/
theorem C8_release_best_effort (env env' : ReleaseEnv)
    (hj : env'.joinable = env.joinable) (hp : env'.hasProd = env.hasProd)
    (hc : env'.connectHandle = env.connectHandle)
    (hs : env'.serviceHandle = env.serviceHandle) :
    (release_kb env').attempted = (release_kb env).attempted ∧
    ((release_kb env).retval = 0 ↔
      (env.closeReadResult ≠ -1 ∧ env.closeWriteResult ≠ -1 ∧
        env.resetResult = 0 ∧
        (env.connectHandle ≠ 0 → env.serviceCloseResult = 0) ∧
        (env.serviceHandle ≠ 0 → env.objectReleaseResult = 0))) ∧
    (env.joinable = false → "No thread was running!" ∈ (release_kb env).logged) := by
  refine ⟨?_, ?_, ?_⟩
  · simp [release_kb, hj, hp, hc, hs]
  · simp only [release_kb]
    split_ifs <;> simp_all
  · intro hjf
    simp [release_kb, hjf]

theorem C8_release_best_effort_witness :
    ((⟨false, true, 0, 0, 0, 1, 0, 1, 0⟩ : ReleaseEnv).joinable
        = (⟨false, true, -1, 0, 0, 1, 0, 1, 0⟩ : ReleaseEnv).joinable) ∧
    ((release_kb ⟨false, true, 0, 0, 0, 1, 0, 1, 0⟩).attempted
        = (release_kb ⟨false, true, -1, 0, 0, 1, 0, 1, 0⟩).attempted ∧
      ((release_kb ⟨false, true, -1, 0, 0, 1, 0, 1, 0⟩).retval = 0 ↔
        ((⟨false, true, -1, 0, 0, 1, 0, 1, 0⟩ : ReleaseEnv).closeReadResult ≠ -1 ∧
          (⟨false, true, -1, 0, 0, 1, 0, 1, 0⟩ : ReleaseEnv).closeWriteResult ≠ -1 ∧
          (⟨false, true, -1, 0, 0, 1, 0, 1, 0⟩ : ReleaseEnv).resetResult = 0 ∧
          ((⟨false, true, -1, 0, 0, 1, 0, 1, 0⟩ : ReleaseEnv).connectHandle ≠ 0 →
            (⟨false, true, -1, 0, 0, 1, 0, 1, 0⟩ : ReleaseEnv).serviceCloseResult = 0) ∧
          ((⟨false, true, -1, 0, 0, 1, 0, 1, 0⟩ : ReleaseEnv).serviceHandle ≠ 0 →
            (⟨false, true, -1, 0, 0, 1, 0, 1, 0⟩ : ReleaseEnv).objectReleaseResult = 0))) ∧
      ((⟨false, true, -1, 0, 0, 1, 0, 1, 0⟩ : ReleaseEnv).joinable = false →
        "No thread was running!" ∈
          (release_kb ⟨false, true, -1, 0, 0, 1, 0, 1, 0⟩).logged)) :=
  ⟨rfl,
    C8_release_best_effort ⟨false, true, -1, 0, 0, 1, 0, 1, 0⟩
      ⟨false, true, 0, 0, 0, 1, 0, 1, 0⟩ rfl rfl rfl rfl⟩
